import Mathlib

/-!
Verification development for the Quantus explanation-evaluation toolbox.

Shallow embedding of the three source files:
* `quantus/helpers/pytorch_model.py` (`PyTorchModel.predict`, `PyTorchModel.shape_input`),
* `xai_quantification_toolbox/helpers/explanation_func.py` (`explain`),
* the localisation-metric behaviour exercised by
  `tests/metrics/test_localisation_metrics.py`, whose implementations
  (TopKIntersection, Focus) are not part of the sources and are therefore
  modelled from the specification.

Machine floats are modelled by `Rat`; torch tensors by their shape
(`List Nat`) together with flat data (`List Rat`); Python exceptions by an
explicit `PyError` sum returned through `Except`.
-/

/-- The kinds of Python exception the embedded code can raise. -/
inductive PyError where
  | valueError (msg : String)
  | runtimeError (msg : String)
  | attributeError (msg : String)
  | keyError (msg : String)
  | assertionError (msg : String)
deriving DecidableEq, Repr

deriving instance DecidableEq for Except

/-- `true` exactly on `Except.error (PyError.valueError _)`. -/
def PyError.isValueErrorResult {α : Type} : Except PyError α → Bool
  | Except.error (PyError.valueError _) => true
  | _ => false

/-- `true` exactly on `Except.ok _`. -/
def exceptOk {ε α : Type} : Except ε α → Bool
  | Except.ok _ => true
  | Except.error _ => false

/-- The only part of a torch module state the sources consult or change:
its `training` flag (`model.training`, toggled by `model.eval()`). -/
structure TorchModel where
  training : Bool
deriving DecidableEq, Repr

/-- `model.eval()` (line 29 of `explanation_func.py`): puts the module in
evaluation mode, i.e. sets `training := false`. -/
def modelEval (m : TorchModel) : TorchModel := { m with training := false }

/-- Result of a successful `PyTorchModel.predict` call.  Besides the returned
scores we record, from the embedded control flow, whether the forward pass ran
inside `torch.no_grad()` and whether gradient tracking was consequently left
enabled during the forward pass. -/
structure PredictOutput where
  usedNoGrad : Bool
  gradTrackingEnabled : Bool
  scores : List Rat
deriving DecidableEq, Repr

/-- `PyTorchModel.predict` (pytorch_model.py lines 13-27).  The wrapped
module forward pass and `torch.nn.Softmax()` are external collaborators,
passed in as the functions `forward` and `sm`.

Source control flow embedded:
* `if self.model.training: raise AttributeError(...)`;
* `grad_context = torch.no_grad() if grad else suppress()` — the no-grad
  context is entered exactly when `grad` is `true`, and `suppress()` leaves
  gradient tracking enabled;
* `pred = self.model(...)`; `if softmax_act: pred = torch.nn.Softmax()(pred)`. -/
def predict (forward sm : List Rat → List Rat) (training : Bool)
    (x : List Rat) (softmax_act : Bool) (grad : Bool) :
    Except PyError PredictOutput :=
  if training then
    Except.error (PyError.attributeError
      "Torch model needs to be in the evaluation mode.")
  else
    let usedNoGrad := grad
    let pred := forward x
    let pred := if softmax_act then sm pred else pred
    Except.ok ⟨usedNoGrad, !usedNoGrad, pred⟩

/-- A numpy/torch tensor: a shape and the flattened data. -/
structure NpTensor where
  shape : List Nat
  data : List Rat
deriving DecidableEq, Repr

/-- `x.reshape(s)` on the numpy array that `shape_input` receives (the
callers of the wrapper hold numpy batches — `predict` converts its input
with `torch.Tensor(x)` for that reason): succeeds iff the element count
matches the requested shape, otherwise numpy raises a ValueError
(cannot reshape array). -/
def reshape (t : NpTensor) (s : List Nat) : Except PyError NpTensor :=
  if t.data.length = s.prod then Except.ok ⟨s, t.data⟩
  else Except.error (PyError.valueError
    "cannot reshape array of this size into the requested shape")

/-- `PyTorchModel.shape_input` (pytorch_model.py lines 29-33).  Note the
order in the source: the reshape to `(1, nr_channels, img_size, img_size)`
is executed first; only afterwards is `channel_first` consulted, raising a
ValueError when it is `false`. -/
def shape_input (channel_first : Bool) (t : NpTensor)
    (img_size nr_channels : Nat) : Except PyError NpTensor :=
  match reshape t [1, nr_channels, img_size, img_size] with
  | Except.error e => Except.error e
  | Except.ok x =>
      if channel_first then Except.ok x
      else Except.error (PyError.valueError
        "Channel first order expected for a torch model.")

/-- Outcome of the shape computation of one `explain` call:
either a concrete output shape, the KeyError raised by the final `else`
branch for an unknown method name, or `external` for the GradCam branch,
whose output shape is produced by the external `cv2.resize` collaborator
and is out of scope. -/
inductive ExplainShapeResult where
  | ok (shape : List Nat)
  | keyError
  | external
deriving DecidableEq, Repr

/-- `.sum(axis=1)` on a tensor shape: removes the axis-1 entry. -/
def dropAxis1 (s : List Nat) : List Nat := s.take 1 ++ s.drop 2

/-- Shape semantics of the method dispatch of `explain`
(explanation_func.py lines 45-164) on a tensor-shaped input `inputsShape`.

* `explanation` is initialised to `torch.zeros_like(inputs)`, so its shape
  starts as `inputsShape`.
* Every captum `attribute` call (GradientShap, IntegratedGradients,
  InputXGradient, Saliency, Gradient, Occlusion, FeatureAblation) returns a
  tensor of the shape of `inputs` (collaborator contract), and the source
  applies `.sum(axis=1)` to it.
* `Control Var. Sobel Filter` with a rank-4 input assigns a
  `(img_size, img_size)` tensor into each `explanation[i]` of shape
  `(C, H, W)` (a broadcast assignment), leaving the shape of `explanation`
  unchanged; with lower rank it rebinds `explanation` to a
  `(img_size, img_size)` tensor.
* `Control Var. Constant` rebinds `explanation` to
  `torch.Tensor().new_full(size=explanation.shape, ...)`, keeping the
  full `zeros_like(inputs)` shape.
* The pixel-value transforms of lines 166-176 are shape preserving. -/
def explainShape (method : String) (inputsShape : List Nat)
    (img_size : Nat) : ExplainShapeResult :=
  if method == "GradientShap" then ExplainShapeResult.ok (dropAxis1 inputsShape)
  else if method == "IntegratedGradients" then ExplainShapeResult.ok (dropAxis1 inputsShape)
  else if method == "InputXGradient" then ExplainShapeResult.ok (dropAxis1 inputsShape)
  else if method == "Saliency" then ExplainShapeResult.ok (dropAxis1 inputsShape)
  else if method == "Gradient" then ExplainShapeResult.ok (dropAxis1 inputsShape)
  else if method == "Occlusion" then ExplainShapeResult.ok (dropAxis1 inputsShape)
  else if method == "FeatureAblation" then ExplainShapeResult.ok (dropAxis1 inputsShape)
  else if method == "GradCam" then ExplainShapeResult.external
  else if method == "Control Var. Sobel Filter" then
    (if inputsShape.length == 4 then ExplainShapeResult.ok inputsShape
     else ExplainShapeResult.ok [img_size, img_size])
  else if method == "Control Var. Constant" then ExplainShapeResult.ok inputsShape
  else ExplainShapeResult.keyError

/-- The entry checks of `explain` (explanation_func.py lines 24-29), before
any attribution is computed.  `kw` is the value of the key
`"explanation_func"` in `kwargs` when present.

* `assert "explanation_func" in kwargs` — raises an AssertionError when the
  key is missing; only then is `kwargs.get("explanation_func", "Gradient")`
  evaluated, so with the key present its value is returned and the
  `"Gradient"` fallback is dead.
* `model.eval()` is then called unconditionally: the model is switched to
  evaluation mode, not checked. -/
def explainPrelude (kw : Option String) (m : TorchModel) :
    Except PyError (String × TorchModel) :=
  if kw.isSome then
    Except.ok (kw.getD "Gradient", modelEval m)
  else
    Except.error (PyError.assertionError
      "To run RobustnessTest specify explanation_func (str) e.g. Gradient.")

/-- Smallest element of a rational list (`.min()`), 0 on the empty list. -/
def listMin (xs : List Rat) : Rat := xs.foldl min (xs.headD 0)

/-- Largest element of a rational list (`.max()`), 0 on the empty list. -/
def listMax (xs : List Rat) : Rat := xs.foldl max (xs.headD 0)

/-- Modelled from the spec: `normalize_heatmap`, imported by
`explanation_func.py` from `helpers/utils.py`, which is not among the
sources.  Spec section 4.1: rescale to `[0, 1]` via
`(x - min) / (max - min)`, returning the input unchanged on zero-range
(constant) input rather than dividing by zero. -/
def normalize_heatmap (xs : List Rat) : List Rat :=
  if listMax xs = listMin xs then xs
  else xs.map (fun x => (x - listMin xs) / (listMax xs - listMin xs))

/-- `if kwargs.get("abs", False): explanation = explanation.abs()`
(explanation_func.py line 166-167). -/
def absStep (flag : Bool) (xs : List Rat) : List Rat :=
  if flag then xs.map (fun x => |x|) else xs

/-- `if kwargs.get("pos_only", False): explanation[explanation < 0] = 0.0`
(explanation_func.py lines 169-170). -/
def posOnlyStep (flag : Bool) (xs : List Rat) : List Rat :=
  if flag then xs.map (fun x => if x < 0 then 0 else x) else xs

/-- `if kwargs.get("neg_only", False): explanation[explanation > 0] = 0.0`
(explanation_func.py lines 172-173). -/
def negOnlyStep (flag : Bool) (xs : List Rat) : List Rat :=
  if flag then xs.map (fun x => if 0 < x then 0 else x) else xs

/-- `if kwargs.get("normalize", True): explanation = normalize_heatmap(...)`
(explanation_func.py lines 175-176). -/
def normalizeStep (flag : Bool) (xs : List Rat) : List Rat :=
  if flag then normalize_heatmap xs else xs

/-- The pixel-value transform block of `explain`
(explanation_func.py lines 166-176), as the source sequences it: the four
conditional statements rebind `explanation` one after the other. -/
def explainPost (absFlag posOnly negOnly norm : Bool) (xs : List Rat) : List Rat :=
  let xs := absStep absFlag xs
  let xs := posOnlyStep posOnly xs
  let xs := negOnlyStep negOnly xs
  normalizeStep norm xs

/-- Modelled from the spec: the rank of index `i` in the descending order
of `values` used by `top_k_indices` (spec section 4.1) — ties are broken by
the flat index, lower index first.  `rankOf values i` counts the indices
that come strictly before `i` in that order. -/
def rankOf (values : List Rat) (i : Nat) : Nat :=
  ((List.range values.length).filter (fun j =>
    decide (values.getD i 0 < values.getD j 0) ||
      (decide (values.getD j 0 = values.getD i 0) && decide (j < i)))).length

/-- Modelled from the spec: `top_k_indices(values, k)` (spec section 4.1) —
the set of indices of the `k` largest entries of the flattened array, ties
broken in favour of the lower flat index, returned here in increasing index
order.  When `k` exceeds the array length the whole index range results
(the clamping policy for ranking metrics). -/
def top_k_indices (values : List Rat) (k : Nat) : List Nat :=
  (List.range values.length).filter (fun i => decide (rankOf values i < k))

/-- Number of mask-on pixels among the first `n` flat indices. -/
def maskOnCount (n : Nat) (mask : List Bool) : Nat :=
  ((List.range n).filter (fun i => mask.getD i false)).length

/-- Modelled from the spec: the Top-K Intersection score of one sample
(spec section 4.4, TopKIntersection implementation not among the sources):
`|top_k_indices(attr, k) ∩ mask_on_indices| / k`, with `k` clamped to the
pixel count (section 4.1 clamping policy for ranking metrics). -/
def topKIntersectionScore (attr : List Rat) (mask : List Bool) (k : Nat) : Rat :=
  (((top_k_indices attr (min k attr.length)).filter
      (fun i => mask.getD i false)).length : Rat) / ((min k attr.length : Nat) : Rat)

/-- One mosaic sample for the Focus metric: the (already channel-collapsed)
attribution values of its four quadrants, and the boolean 4-tuple `p`
marking which quadrants belong to the target class. -/
structure MosaicSample where
  q1 : List Rat
  q2 : List Rat
  q3 : List Rat
  q4 : List Rat
  p : Bool × Bool × Bool × Bool
deriving DecidableEq, Repr

/-- Positive attribution mass of a flattened map. -/
def posMass (xs : List Rat) : Rat := (xs.filter (fun x => decide (0 < x))).sum

/-- Modelled from the spec: the Focus score of one mosaic sample
(spec section 4.4, Focus implementation not among the sources): the
fraction of the total positive attribution mass that falls in
target-class quadrants. -/
def focusScore (s : MosaicSample) : Rat :=
  let tgt := (if s.p.1 then posMass s.q1 else 0) +
    (if s.p.2.1 then posMass s.q2 else 0) +
    (if s.p.2.2.1 then posMass s.q3 else 0) +
    (if s.p.2.2.2 then posMass s.q4 else 0)
  tgt / (posMass s.q1 + posMass s.q2 + posMass s.q3 + posMass s.q4)

/-- The mutable state of a Focus metric instance: `last_results`, the
ordered sequence of per-sample scores accumulated over all mini-batch
calls since construction (spec section 3, Metric Instance). -/
structure FocusState where
  last_results : List Rat
deriving DecidableEq, Repr

/-- Modelled from the spec: one `evaluate` call on a Focus instance
(spec sections 4.3 and 4.4; Focus implementation not among the sources).
The mosaic batch is `Option` to model an absent (`None`) batch: an absent
or empty batch raises a ValueError (hard precondition); otherwise the
per-sample scores are computed in input order and appended to
`last_results`. -/
def focusCall (st : FocusState) (p_batch : Option (List MosaicSample)) :
    Except PyError FocusState :=
  match p_batch with
  | none => Except.error (PyError.valueError "Focus requires a mosaic batch.")
  | some [] => Except.error (PyError.valueError "Focus requires a non-empty mosaic batch.")
  | some batch => Except.ok ⟨st.last_results ++ batch.map focusScore⟩

/-- A caller-driven sequence of mini-batch `evaluate` calls on one Focus
instance (the incremental invocation pattern of spec section 5): the
mini-batches are fed one after the other, stopping at the first error. -/
def focusRun (st : FocusState) : List (List MosaicSample) → Except PyError FocusState
  | [] => Except.ok st
  | b :: bs =>
      match focusCall st (some b) with
      | Except.error e => Except.error e
      | Except.ok st2 => focusRun st2 bs

/-- C4: for every input, `predict` fails with an error (and returns no
prediction) if and only if the wrapped model reports that it is in training
mode; when the model is in evaluation mode the call proceeds. -/
theorem predict_fails_iff_training (forward sm : List Rat → List Rat)
    (training : Bool) (x : List Rat) (softmax_act grad : Bool) :
    exceptOk (predict forward sm training x softmax_act grad) = false ↔
      training = true := by
  cases training <;> simp [predict, exceptOk]

/-- C10: in `predict`, the forward pass runs inside `torch.no_grad()` if and
only if the caller passes `grad=True`; under `grad=False` the `suppress()`
context leaves gradient tracking enabled; and the returned scores are the
softmax of the raw model outputs exactly when `softmax_act` is true. -/
theorem predict_no_grad_iff_grad_flag (forward sm : List Rat → List Rat)
    (x : List Rat) (softmax_act grad : Bool) :
    predict forward sm false x softmax_act grad =
      Except.ok ⟨grad, !grad, if softmax_act then sm (forward x) else forward x⟩ :=
  rfl

/-- C8: every call to `explain` whose options do not include the key
`"explanation_func"` fails with an AssertionError before any computation,
and with the key present the method used is always the supplied value, so
the `"Gradient"` fallback default of the subsequent lookup is unreachable. -/
theorem explain_requires_explanation_func (m : TorchModel) :
    explainPrelude none m = Except.error (PyError.assertionError
      "To run RobustnessTest specify explanation_func (str) e.g. Gradient.") ∧
    ∀ s : String, explainPrelude (some s) m = Except.ok (s, modelEval m) :=
  ⟨rfl, fun _ => rfl⟩

/-- C3 counterexample: with the model in training mode, `explain` does not
fail fast — the call succeeds, and the model that comes out of `model.eval()`
differs from the model that went in (its mode was mutated by the explanation
path of the core). -/
theorem explain_mutates_training_model_cex :
    explainPrelude (some "Gradient") ⟨true⟩ =
      Except.ok ("Gradient", modelEval ⟨true⟩) ∧
    exceptOk (explainPrelude (some "Gradient") ⟨true⟩) = true ∧
    modelEval ⟨true⟩ ≠ (⟨true⟩ : TorchModel) := by
  decide

/-- C3 (amended): `predict` fails fast when the model is in training mode
and proceeds exactly when it is in evaluation mode, but the explanation
path does not fail fast on a training-mode model — `explain` switches the
model to evaluation mode itself via `model.eval()`, mutating its mode. -/
theorem model_mode_policy_amended (m : TorchModel) (s : String)
    (forward sm : List Rat → List Rat) (x : List Rat) (softmax_act grad : Bool) :
    explainPrelude (some s) m = Except.ok (s, modelEval m) ∧
    (modelEval m).training = false ∧
    (exceptOk (predict forward sm m.training x softmax_act grad) = true ↔
      m.training = false) := by
  refine ⟨rfl, rfl, ?_⟩
  rcases m with ⟨tr⟩
  cases tr <;> simp [predict, exceptOk]

/-- C9 counterexample: with `channel_first = true`, an input whose element
count does not fit `(1, nr_channels, img_size, img_size)` makes
`shape_input` raise the numpy reshape ValueError instead of returning the
reshaped tensor, so the returns-a-reshaped-tensor half of the claim does
not hold for every input. -/
theorem shape_input_true_mismatch_raises_cex :
    shape_input true ⟨[2], [1, 2]⟩ 2 3 = Except.error (PyError.valueError
      "cannot reshape array of this size into the requested shape") ∧
    exceptOk (shape_input true ⟨[2], [1, 2]⟩ 2 3) = false := by
  decide

/-- C9 (amended): with `channel_first = false`, `shape_input` raises a
ValueError for every input (the numpy reshape ValueError on a mismatched
element count, the explicit channel-order ValueError otherwise); with
`channel_first = true` it returns the input reshaped to the single-sample
channel-first square shape whenever the element count matches
`(1, nr_channels, img_size, img_size)`, and on any other element count it
raises the reshape ValueError rather than returning. -/
theorem shape_input_amended (t : NpTensor) (img_size nr_channels : Nat) :
    PyError.isValueErrorResult (shape_input false t img_size nr_channels) = true ∧
    (t.data.length = ([1, nr_channels, img_size, img_size] : List Nat).prod →
      shape_input true t img_size nr_channels =
        Except.ok ⟨[1, nr_channels, img_size, img_size], t.data⟩) ∧
    (t.data.length ≠ ([1, nr_channels, img_size, img_size] : List Nat).prod →
      PyError.isValueErrorResult (shape_input true t img_size nr_channels) = true) := by
  by_cases hlen : t.data.length = ([1, nr_channels, img_size, img_size] : List Nat).prod
  · refine ⟨?_, fun _ => ?_, fun hne => absurd hlen hne⟩ <;>
      simp [shape_input, reshape, hlen, PyError.isValueErrorResult]
  · have hlen2 : ¬ t.data.length = nr_channels * (img_size * img_size) := by
      simpa using hlen
    refine ⟨?_, fun h => absurd h hlen, fun _ => ?_⟩ <;>
      simp [shape_input, reshape, hlen2, PyError.isValueErrorResult]

/-- C9 witness: at a concrete four-element input with `nr_channels = 1`
and `img_size = 2` (so the element count matches), the false-flag call
raises a ValueError and the true-flag call returns the reshaped tensor,
by the amended theorem applied at that input. -/
theorem shape_input_amended_witness :
    PyError.isValueErrorResult (shape_input false ⟨[4], [1, 2, 3, 4]⟩ 2 1) = true ∧
    (NpTensor.mk [4] [1, 2, 3, 4]).data.length = ([1, 1, 2, 2] : List Nat).prod ∧
    shape_input true ⟨[4], [1, 2, 3, 4]⟩ 2 1 =
      Except.ok ⟨[1, 1, 2, 2], [1, 2, 3, 4]⟩ :=
  ⟨(shape_input_amended ⟨[4], [1, 2, 3, 4]⟩ 2 1).1, by decide,
    (shape_input_amended ⟨[4], [1, 2, 3, 4]⟩ 2 1).2.1 (by decide)⟩

/-- C1 counterexample: the `Control Var. Constant` branch of `explain`
returns an attribution of the full input shape `(1, 3, 2, 2)` — the channel
axis is retained, not collapsed to `(1, 2, 2)`. -/
theorem explain_constant_keeps_channel_axis_cex :
    explainShape "Control Var. Constant" [1, 3, 2, 2] 224 =
      ExplainShapeResult.ok [1, 3, 2, 2] ∧
    explainShape "Control Var. Constant" [1, 3, 2, 2] 224 ≠
      ExplainShapeResult.ok (dropAxis1 [1, 3, 2, 2]) := by
  decide

/-- C1 (amended): for the captum-based methods (GradientShap,
IntegratedGradients, InputXGradient, Saliency, Gradient, Occlusion,
FeatureAblation) the output shape is the input batch/spatial shape with the
channel axis collapsed; the `Control Var. Constant` branch and the
`Control Var. Sobel Filter` branch on rank-4 input instead keep the full
input shape, channel axis included; the GradCam branch hands the map to
the external `cv2.resize`, whose output shape is out of scope. -/
theorem explain_shape_amended (b c h w size : Nat) :
    explainShape "GradientShap" [b, c, h, w] size = ExplainShapeResult.ok [b, h, w] ∧
    explainShape "IntegratedGradients" [b, c, h, w] size = ExplainShapeResult.ok [b, h, w] ∧
    explainShape "InputXGradient" [b, c, h, w] size = ExplainShapeResult.ok [b, h, w] ∧
    explainShape "Saliency" [b, c, h, w] size = ExplainShapeResult.ok [b, h, w] ∧
    explainShape "Gradient" [b, c, h, w] size = ExplainShapeResult.ok [b, h, w] ∧
    explainShape "Occlusion" [b, c, h, w] size = ExplainShapeResult.ok [b, h, w] ∧
    explainShape "FeatureAblation" [b, c, h, w] size = ExplainShapeResult.ok [b, h, w] ∧
    explainShape "Control Var. Constant" [b, c, h, w] size =
      ExplainShapeResult.ok [b, c, h, w] ∧
    explainShape "Control Var. Sobel Filter" [b, c, h, w] size =
      ExplainShapeResult.ok [b, c, h, w] ∧
    explainShape "GradCam" [b, c, h, w] size = ExplainShapeResult.external :=
  ⟨rfl, rfl, rfl, rfl, rfl, rfl, rfl, rfl, rfl, rfl⟩

/-- C5: the pixel-value transforms of `explain` are applied in the fixed
order absolute value, then zeroing of negatives, then zeroing of positives,
then min-max normalization — and the order is observable: on the map
`[-1, 1, 3]` with `pos_only` and `normalize` configured, normalizing the
clipped values differs from clipping the normalized values. -/
theorem explain_transform_order :
    (∀ (absFlag posOnly negOnly norm : Bool) (xs : List Rat),
      explainPost absFlag posOnly negOnly norm xs =
        normalizeStep norm (negOnlyStep negOnly (posOnlyStep posOnly (absStep absFlag xs)))) ∧
    explainPost false true false true [-1, 1, 3] =
      normalize_heatmap (posOnlyStep true [-1, 1, 3]) ∧
    explainPost false true false true [-1, 1, 3] ≠
      posOnlyStep true (normalize_heatmap [-1, 1, 3]) := by
  refine ⟨fun _ _ _ _ _ => rfl, ?_, ?_⟩ <;>
    norm_num [explainPost, absStep, posOnlyStep, negOnlyStep, normalizeStep,
      normalize_heatmap, listMin, listMax]

/-- The descending-order rank used by `top_k_indices` is always strictly
below the array length: index `i` never counts itself. -/
lemma rankOf_lt_length (values : List Rat) (i : Nat) (hi : i < values.length) :
    rankOf values i < values.length := by
  have hmem : i ∈ List.range values.length := List.mem_range.mpr hi
  have hp : ¬ ((fun j => decide (values.getD i 0 < values.getD j 0) ||
      (decide (values.getD j 0 = values.getD i 0) && decide (j < i))) i = true) := by
    simp
  have hlt : ((List.range values.length).filter (fun j =>
      decide (values.getD i 0 < values.getD j 0) ||
        (decide (values.getD j 0 = values.getD i 0) && decide (j < i)))).length <
      (List.range values.length).length :=
    List.length_filter_lt_length_iff_exists.mpr ⟨i, hmem, hp⟩
  simpa [rankOf] using hlt

/-- With `k` equal to the array length, `top_k_indices` selects every flat
index: the full top-k set is the whole image. -/
lemma top_k_indices_full (values : List Rat) :
    top_k_indices values values.length = List.range values.length := by
  apply List.filter_eq_self.mpr
  intro i hi
  simpa using rankOf_lt_length values i (List.mem_range.mp hi)

/-- C2 counterexample: on a four-pixel sample with a non-empty single-pixel
mask, Top-K Intersection at `k = 4` (the total pixel count) scores `1/4`
— the mask density — and not `1.0`. -/
theorem topk_full_k_not_one_cex :
    topKIntersectionScore [1, 1, 1, 1] [true, false, false, false] 4 ≠ 1 ∧
    topKIntersectionScore [1, 1, 1, 1] [true, false, false, false] 4 = 1 / 4 ∧
    maskOnCount 4 [true, false, false, false] ≠ 0 := by
  have h : topKIntersectionScore [1, 1, 1, 1] [true, false, false, false] 4 =
      ((1 : Nat) : Rat) / ((4 : Nat) : Rat) := rfl
  refine ⟨?_, ?_, by decide⟩ <;> rw [h] <;> norm_num

/-- C2 (amended): Top-K Intersection with `k` equal to the total
pixel count of the sample returns the mask density `m/k` (the full top-k set is the whole
image); in particular it equals `1.0` exactly when the mask covers every
pixel, not whenever the mask is merely non-empty. -/
theorem topk_full_k_is_mask_density (attr : List Rat) (mask : List Bool)
    (h : 0 < attr.length) :
    topKIntersectionScore attr mask attr.length =
      (maskOnCount attr.length mask : Rat) / (attr.length : Rat) ∧
    (topKIntersectionScore attr mask attr.length = 1 ↔
      maskOnCount attr.length mask = attr.length) := by
  have hscore : topKIntersectionScore attr mask attr.length =
      (maskOnCount attr.length mask : Rat) / (attr.length : Rat) := by
    unfold topKIntersectionScore maskOnCount
    rw [min_self, top_k_indices_full]
  refine ⟨hscore, ?_⟩
  have hne : ((attr.length : Rat)) ≠ 0 := by exact_mod_cast h.ne'
  rw [hscore, div_eq_one_iff_eq hne, Nat.cast_inj]

/-- C2 witness: a concrete two-pixel sample with an all-on mask satisfies
the positivity hypothesis; its full-`k` score is the mask density, which
here is `1` because the mask covers both pixels. -/
theorem topk_full_k_is_mask_density_witness :
    0 < ([1, 2] : List Rat).length ∧
    (topKIntersectionScore [1, 2] [true, true] ([1, 2] : List Rat).length =
      (maskOnCount ([1, 2] : List Rat).length [true, true] : Rat) /
        (([1, 2] : List Rat).length : Rat) ∧
    (topKIntersectionScore [1, 2] [true, true] ([1, 2] : List Rat).length = 1 ↔
      maskOnCount ([1, 2] : List Rat).length [true, true] = ([1, 2] : List Rat).length)) :=
  ⟨by decide, topk_full_k_is_mask_density [1, 2] [true, true] (by decide)⟩

/-- C6: a Focus `evaluate` call fails with a ValueError exactly when the
mosaic batch is entirely absent (`None`) or empty, for every instance
state; otherwise no ValueError is produced. -/
theorem focus_absent_or_empty_batch_value_error (st : FocusState)
    (p_batch : Option (List MosaicSample)) :
    PyError.isValueErrorResult (focusCall st p_batch) = true ↔
      (p_batch = none ∨ p_batch = some []) := by
  match p_batch with
  | none => simp [focusCall, PyError.isValueErrorResult]
  | some [] => simp [focusCall, PyError.isValueErrorResult]
  | some (s :: bs) => simp [focusCall, PyError.isValueErrorResult]

/-- A run of successful mini-batch Focus calls appends the per-sample
scores of each mini-batch, in order, to the accumulated results. -/
lemma focusRun_ok (bs : List (List MosaicSample)) :
    ∀ st : FocusState, (∀ b ∈ bs, b ≠ []) →
      focusRun st bs = Except.ok ⟨st.last_results ++ bs.flatten.map focusScore⟩ := by
  induction bs with
  | nil =>
      intro st _
      simp [focusRun]
  | cons b bs ih =>
      intro st h
      have hb : b ≠ [] := h b (List.mem_cons_self b bs)
      match b, hb with
      | x :: xs, _ =>
          have hrest : ∀ b2 ∈ bs, b2 ≠ [] :=
            fun b2 hb2 => h b2 (List.mem_cons_of_mem _ hb2)
          simp [focusRun, focusCall, ih _ hrest, List.append_assoc]

/-- C7: over any sequence of successful mini-batch `evaluate` calls on one
Focus instance starting from construction, the accumulated results grow by
appending the per-sample scores of each call in input order, so after the full
mosaic batch is processed the accumulated sequence is exactly one score
per sample of the whole batch, in batch order. -/
theorem focus_accumulates_scores_in_order (bs : List (List MosaicSample))
    (h : ∀ b ∈ bs, b ≠ []) :
    focusRun ⟨[]⟩ bs = Except.ok ⟨bs.flatten.map focusScore⟩ := by
  simpa using focusRun_ok bs ⟨[]⟩ h

/-- C7 witness: two concrete singleton mini-batches are all non-empty, and
running them accumulates the two per-sample scores in batch order. -/
theorem focus_accumulates_scores_in_order_witness :
    (∀ b ∈ ([[⟨[1], [0], [0], [0], (true, false, false, false)⟩],
        [⟨[1], [1], [0], [0], (true, true, false, false)⟩]] :
        List (List MosaicSample)), b ≠ []) ∧
    focusRun ⟨[]⟩ [[⟨[1], [0], [0], [0], (true, false, false, false)⟩],
        [⟨[1], [1], [0], [0], (true, true, false, false)⟩]] =
      Except.ok ⟨([[⟨[1], [0], [0], [0], (true, false, false, false)⟩],
        [⟨[1], [1], [0], [0], (true, true, false, false)⟩]] :
        List (List MosaicSample)).flatten.map focusScore⟩ :=
  ⟨by decide, focus_accumulates_scores_in_order _ (by decide)⟩
